import Mathlib

/-!
Verification of src/static/js/policy_tinymce_init.js.

The script registers a DOMContentLoaded handler that checks whether the
global identifier tinymce is defined; if it is undefined the handler
returns immediately, otherwise it calls tinymce.init with a fixed
configuration object literal.
-/

namespace PolicyTinymce

/-- Configuration Object passed to tinymce.init: the eight option fields
appearing in the object literal of the source file. -/
structure Config where
  selector : String
  menubar : String
  plugins : String
  toolbar : String
  toolbar_mode : String
  height : Nat
  branding : Bool
  convert_urls : Bool
deriving DecidableEq, Repr

/-- The configuration object literal from the source, field by field. -/
def policyTinymceConfig : Config :=
  { selector := "textarea.tinymce-policy"
  , menubar := "file edit view insert format tools table help"
  , plugins := "advlist autolink lists link charmap searchreplace visualblocks visualchars fullscreen table code wordcount"
  , toolbar := "undo redo | blocks | bold italic underline | alignleft aligncenter alignright alignjustify | bullist numlist outdent indent | link table | removeformat | fullscreen code"
  , toolbar_mode := "sliding"
  , height := 420
  , branding := false
  , convert_urls := false }

/-- Possible values of the global identifier tinymce at trigger time:
undefined, null, an object whose init member is not callable, or a
library object with a callable init entry point. -/
inductive JsValue
  | undefined
  | null
  | objWithoutInit
  | library
deriving DecidableEq, Repr

/-- Errors a member call can raise in the host environment. -/
inductive JsError
  | typeError
deriving DecidableEq, Repr

/-- The guard test of line 5 of the source: typeof tinymce equals the
string "undefined" exactly when the identifier is undefined (typeof null
is "object", so null passes the guard). -/
def typeofUndefined : JsValue → Bool
  | JsValue.undefined => true
  | _ => false

/-- Semantics of the member call tinymce.init(cfg). On undefined or null
the property access throws TypeError; on an object without a callable
init the call throws TypeError; on the library the call succeeds and the
configuration it received is recorded. -/
def initCall : JsValue → Config → Except JsError (List Config)
  | JsValue.library, cfg => Except.ok [cfg]
  | _, _ => Except.error JsError.typeError

/-- The DOMContentLoaded handler of lines 4-22: if typeof tinymce is
"undefined" it returns immediately with no calls, otherwise it invokes
tinymce.init with the configuration object literal. The result is the
list of successful initialization calls, or the error that escaped. -/
def handler (tinymce : JsValue) : Except JsError (List Config) :=
  if typeofUndefined tinymce then Except.ok []
  else initCall tinymce policyTinymceConfig

/-- The initialization calls a single firing of the handler makes (an
escaping error makes none). -/
def calls (tinymce : JsValue) : List Config :=
  match handler tinymce with
  | Except.ok cs => cs
  | Except.error _ => []

/-- Initialization calls accumulated over a sequence of trigger firings,
each firing seeing the value the global identifier has at that time. The
handler keeps no state between firings. -/
def runTrace : List JsValue → List Config
  | [] => []
  | g :: t => calls g ++ runTrace t

/-- Operations the handler performs on the configuration object:
construction of the literal, a field write, or handing the object to the
library. The source constructs the object literal inline in the call and
never writes a field. -/
inductive ConfigOp
  | construct (c : Config)
  | write (field : String)
  | pass (c : Config)
deriving DecidableEq, Repr

/-- Whether a configuration-object operation is a field write. -/
def ConfigOp.isWrite : ConfigOp → Bool
  | ConfigOp.write _ => true
  | _ => false

/-- Trace of configuration-object operations for one firing. When the
guard returns, nothing happens. When tinymce is null the property access
throws before the argument literal is evaluated. When init is not
callable the literal is constructed and the call then throws, so the
library never receives it. When the library is present the literal is
constructed and handed over unchanged. -/
def handlerConfigOps : JsValue → List ConfigOp
  | JsValue.undefined => []
  | JsValue.null => []
  | JsValue.objWithoutInit => [ConfigOp.construct policyTinymceConfig]
  | JsValue.library =>
      [ConfigOp.construct policyTinymceConfig, ConfigOp.pass policyTinymceConfig]

/-- Two-state abstraction of the initializer: Initialized exactly when at
least one initialization call has been made. -/
inductive InitState
  | notInitialized
  | initialized
deriving DecidableEq, Repr

/-- State of the abstraction after a sequence of trigger firings. -/
def initStateOf (t : List JsValue) : InitState :=
  if (runTrace t).isEmpty then InitState.notInitialized else InitState.initialized

end PolicyTinymce

namespace PolicyTinymce

/-- Evaluation of the handler with the library present: one call with the
configuration literal. -/
theorem calls_library_eq : calls JsValue.library = [policyTinymceConfig] := rfl

/-- Calls distribute over concatenated firing sequences. -/
theorem runTrace_append (u v : List JsValue) :
    runTrace (u ++ v) = runTrace u ++ runTrace v := by
  induction u with
  | nil => rfl
  | cons a u ih => simp [runTrace, ih]

/-- A firing makes a call exactly when the library is present. -/
theorem calls_ne_nil_iff (g : JsValue) :
    calls g ≠ [] ↔ g = JsValue.library := by
  cases g <;> simp [calls, handler, typeofUndefined, initCall]

/-- The abstraction is Initialized exactly when some call has been made. -/
theorem initStateOf_eq_initialized_iff (u : List JsValue) :
    initStateOf u = InitState.initialized ↔ runTrace u ≠ [] := by
  rcases h : runTrace u with _ | ⟨c, cs⟩ <;> simp [initStateOf, h]

/-- C1: with the library identifier present, one firing of the handler
invokes the initialization entry point exactly once, with a configuration
whose selector is "textarea.tinymce-policy", whose height is 420, and
whose plugins string contains the expected feature-module list (here the
plugins string is exactly that list). -/
theorem handler_library_inits_once_with_config :
    handler JsValue.library = Except.ok [policyTinymceConfig] ∧
    policyTinymceConfig.selector = "textarea.tinymce-policy" ∧
    policyTinymceConfig.height = 420 ∧
    ∃ pre post : String,
      policyTinymceConfig.plugins =
        pre ++ "advlist autolink lists link charmap searchreplace visualblocks visualchars fullscreen table code wordcount" ++ post := by
  exact ⟨rfl, rfl, rfl, "", "", rfl⟩

/-- C2: with the library identifier absent, the handler makes zero
initialization calls, returns normally, and performs no
configuration-object operation of any kind. -/
theorem handler_absent_no_calls_no_effects :
    handler JsValue.undefined = Except.ok [] ∧
    calls JsValue.undefined = [] ∧
    handlerConfigOps JsValue.undefined = [] := by
  exact ⟨rfl, rfl, rfl⟩

/-- C3: whenever typeof tinymce is "undefined", the handler terminates
normally: it returns ok with no calls, so no exception escapes. -/
theorem handler_absent_no_exception (g : JsValue)
    (h : typeofUndefined g = true) :
    handler g = Except.ok [] := by
  cases g <;> simp_all [handler, typeofUndefined]

/-- Witness for C3 at the undefined global. -/
theorem handler_absent_no_exception_witness :
    typeofUndefined JsValue.undefined = true ∧
    handler JsValue.undefined = Except.ok [] :=
  ⟨by decide, handler_absent_no_exception JsValue.undefined (by decide)⟩

/-- C4: n firings of the trigger with the library present make exactly n
initialization calls: the handler keeps no state, so there is no
deduplication. -/
theorem trigger_n_times_n_calls (n : Nat) :
    (runTrace (List.replicate n JsValue.library)).length = n := by
  induction n with
  | zero => rfl
  | succ k ih =>
      rw [List.replicate_succ]
      simp [runTrace, calls_library_eq, ih]

/-- C5 counterexample: two firings of the trigger with the library present
make two initialization calls, so the number of calls per page lifecycle
is not capped at one regardless of how the signal behaves. -/
theorem two_firings_two_calls :
    (runTrace (List.replicate 2 JsValue.library)).length = 2 ∧
    ¬ (runTrace (List.replicate 2 JsValue.library)).length ≤ 1 := by
  constructor
  · rfl
  · show ¬ (2 : Nat) ≤ 1
    decide

/-- C5 amended: each firing of the content-loaded signal with the library
present makes exactly one initialization call with the Configuration
Object of §3, so a page load in which the signal fires once gets exactly
one call; n firings make n calls, with no cap enforced by the handler. -/
theorem one_call_per_firing (n : Nat) :
    runTrace (List.replicate n JsValue.library) =
      List.replicate n policyTinymceConfig := by
  induction n with
  | zero => rfl
  | succ k ih =>
      rw [List.replicate_succ, List.replicate_succ]
      simp [runTrace, calls_library_eq, ih]

/-- C6: any two initialization calls made by any two invocations of the
handler carry identical configuration objects: every call passes the one
literal, so the handler is deterministic in what it passes. -/
theorem config_invariant_across_invocations
    (g₁ g₂ : JsValue) (c₁ c₂ : Config)
    (h₁ : c₁ ∈ calls g₁) (h₂ : c₂ ∈ calls g₂) :
    c₁ = policyTinymceConfig ∧ c₂ = policyTinymceConfig ∧ c₁ = c₂ := by
  cases g₁ <;> cases g₂ <;>
    simp [calls, handler, typeofUndefined, initCall] at h₁ h₂
  subst h₁
  subst h₂
  exact ⟨rfl, rfl, rfl⟩

/-- Witness for C6 at two library-present invocations. -/
theorem config_invariant_across_invocations_witness :
    policyTinymceConfig ∈ calls JsValue.library ∧
    (policyTinymceConfig = policyTinymceConfig ∧
     policyTinymceConfig = policyTinymceConfig ∧
     policyTinymceConfig = policyTinymceConfig) :=
  ⟨by rw [calls_library_eq]; exact List.mem_singleton.mpr rfl,
   config_invariant_across_invocations JsValue.library JsValue.library
     policyTinymceConfig policyTinymceConfig
     (by rw [calls_library_eq]; exact List.mem_singleton.mpr rfl)
     (by rw [calls_library_eq]; exact List.mem_singleton.mpr rfl)⟩

/-- C7: in every firing the handler performs no write to the
configuration object, and any object it hands to the library holds the
initial literal value in every field. -/
theorem config_never_mutated (g : JsValue) :
    (∀ op ∈ handlerConfigOps g, (ConfigOp.isWrite op) = false) ∧
    (∀ c : Config, ConfigOp.pass c ∈ handlerConfigOps g →
      c.selector = "textarea.tinymce-policy" ∧
      c.menubar = "file edit view insert format tools table help" ∧
      c.plugins = "advlist autolink lists link charmap searchreplace visualblocks visualchars fullscreen table code wordcount" ∧
      c.toolbar = "undo redo | blocks | bold italic underline | alignleft aligncenter alignright alignjustify | bullist numlist outdent indent | link table | removeformat | fullscreen code" ∧
      c.toolbar_mode = "sliding" ∧
      c.height = 420 ∧
      c.branding = false ∧
      c.convert_urls = false) := by
  cases g with
  | undefined =>
      refine ⟨?_, ?_⟩ <;> intro c hc <;> simp [handlerConfigOps] at hc
  | null =>
      refine ⟨?_, ?_⟩ <;> intro c hc <;> simp [handlerConfigOps] at hc
  | objWithoutInit =>
      refine ⟨?_, ?_⟩ <;> intro c hc <;> simp [handlerConfigOps] at hc
      subst hc
      rfl
  | library =>
      refine ⟨?_, ?_⟩ <;> intro c hc <;> simp [handlerConfigOps] at hc
      · rcases hc with h | h <;> subst h <;> rfl
      · subst hc
        exact ⟨rfl, rfl, rfl, rfl, rfl, rfl, rfl, rfl⟩

/-- Witness for C7 at the library-present firing and the passed object. -/
theorem config_never_mutated_witness :
    ((ConfigOp.isWrite (ConfigOp.pass policyTinymceConfig)) = false) ∧
    policyTinymceConfig.height = 420 :=
  ⟨((config_never_mutated JsValue.library).1
      (ConfigOp.pass policyTinymceConfig) (by simp [handlerConfigOps])),
   ((config_never_mutated JsValue.library).2 policyTinymceConfig
      (by simp [handlerConfigOps])).2.2.2.2.2.1⟩

/-- C8: the abstraction has two states; before any firing the state is
Not Initialized; a firing moves the state to Initialized exactly when the
state was already Initialized or the library is present at that firing;
and once Initialized the state never transitions back. -/
theorem state_machine_forward_only (t : List JsValue) (g : JsValue) :
    initStateOf [] = InitState.notInitialized ∧
    (initStateOf t = InitState.initialized →
      initStateOf (t ++ [g]) = InitState.initialized) ∧
    (initStateOf (t ++ [g]) = InitState.initialized ↔
      (initStateOf t = InitState.initialized ∨ g = JsValue.library)) := by
  have hrun : runTrace (t ++ [g]) = runTrace t ++ calls g := by
    rw [runTrace_append]
    simp [runTrace]
  refine ⟨rfl, ?_, ?_⟩
  · intro h
    rw [initStateOf_eq_initialized_iff] at h ⊢
    rw [hrun]
    intro hcontra
    exact h (List.append_eq_nil.mp hcontra).1
  · rw [initStateOf_eq_initialized_iff, initStateOf_eq_initialized_iff,
      hrun, ← calls_ne_nil_iff g]
    rw [ne_eq, List.append_eq_nil, not_and_or]

/-- Witness for C8 at the empty trace followed by a library firing. -/
theorem state_machine_forward_only_witness :
    initStateOf [] = InitState.notInitialized ∧
    (initStateOf ([] ++ [JsValue.library]) = InitState.initialized ↔
      (initStateOf [] = InitState.initialized ∨
        JsValue.library = JsValue.library)) :=
  ⟨(state_machine_forward_only [] JsValue.library).1,
   (state_machine_forward_only [] JsValue.library).2.2⟩

/-- C9: the guard only tests typeof: for null, and for an object whose
init member is not callable, the handler proceeds past the guard and the
resulting TypeError propagates out of the routine uncaught. -/
theorem guard_passes_invalid_library_error_escapes :
    (typeofUndefined JsValue.null = false ∧
      handler JsValue.null = Except.error JsError.typeError) ∧
    (typeofUndefined JsValue.objWithoutInit = false ∧
      handler JsValue.objWithoutInit = Except.error JsError.typeError) := by
  exact ⟨⟨rfl, rfl⟩, ⟨rfl, rfl⟩⟩

/-- C10: every configuration the handler passes has branding false and
convert_urls false: the attribution UI and URL rewriting are always
disabled. -/
theorem branding_and_convert_urls_always_false
    (g : JsValue) (c : Config) (h : c ∈ calls g) :
    c.branding = false ∧ c.convert_urls = false := by
  cases g <;> simp [calls, handler, typeofUndefined, initCall] at h
  subst h
  exact ⟨rfl, rfl⟩

/-- Witness for C10 at the library-present firing. -/
theorem branding_and_convert_urls_always_false_witness :
    policyTinymceConfig ∈ calls JsValue.library ∧
    policyTinymceConfig.branding = false ∧
    policyTinymceConfig.convert_urls = false :=
  ⟨by rw [calls_library_eq]; exact List.mem_singleton.mpr rfl,
   branding_and_convert_urls_always_false JsValue.library policyTinymceConfig
     (by rw [calls_library_eq]; exact List.mem_singleton.mpr rfl)⟩

end PolicyTinymce
